import Mathlib

/-!
Verification of the asset emitter in `mobile/rider-app/assets/create_assets.py`.

The script builds, for five fixed `(filename, width, height)` descriptors, a
minimal PNG-like byte stream (signature, IHDR, IDAT, IEND) and writes it to
disk, printing one line per file and a completion message.

The embedding below models bytes as `Nat` (each in `[0, 256)`), byte strings
as `List Nat`, Python integers as `Int`, and the fallible `struct.pack` calls
as `Option`-returning functions (`none` models a raised `struct.error`).
-/

/-- The fixed 8-byte PNG signature `b'\x89PNG\r\n\x1a\n'`. -/
def pngSignature : List Nat := [0x89, 0x50, 0x4E, 0x47, 0x0D, 0x0A, 0x1A, 0x0A]

/-- The 4 ASCII bytes of the tag `b'IHDR'`. -/
def tagIHDR : List Nat := [0x49, 0x48, 0x44, 0x52]

/-- The 4 ASCII bytes of the tag `b'IDAT'`. -/
def tagIDAT : List Nat := [0x49, 0x44, 0x41, 0x54]

/-- The 4 ASCII bytes of the tag `b'IEND'`. -/
def tagIEND : List Nat := [0x49, 0x45, 0x4E, 0x44]

/-- Big-endian 4-byte encoding of a natural number (the byte layout produced
by `struct.pack('>I', n)` for an in-range argument). -/
def be32 (n : Nat) : List Nat :=
  [n / 16777216 % 256, n / 65536 % 256, n / 256 % 256, n % 256]

/-- `struct.pack('>I', x)`: packs `x` as 4 big-endian bytes, raising
`struct.error` (modelled as `none`) unless `0 ≤ x < 2^32`. -/
def packBE32 (x : Int) : Option (List Nat) :=
  if 0 ≤ x ∧ x < 4294967296 then some (be32 x.toNat) else none

/-- `struct.pack('>B', x)` for one field: a single byte, in range `[0, 256)`. -/
def packU8 (x : Int) : Option (List Nat) :=
  if 0 ≤ x ∧ x < 256 then some [x.toNat] else none

/-- `0xFFFFFFFF & ~s` for a nonnegative Python int `s`: the bitwise complement
of the low 32 bits of `s`. -/
def compl32 (s : Nat) : Nat := 4294967295 - s % 4294967296

/-- `struct.pack('>2I5B', width, height, 8, 2, 0, 0, 0)`: the 13-byte IHDR
payload, failing if width or height is outside the 4-byte unsigned range. -/
def ihdrPack (width height : Int) : Option (List Nat) := do
  let wb ← packBE32 width
  let hb ← packBE32 height
  let b1 ← packU8 8
  let b2 ← packU8 2
  let b3 ← packU8 0
  let b4 ← packU8 0
  let b5 ← packU8 0
  pure (wb ++ hb ++ b1 ++ b2 ++ b3 ++ b4 ++ b5)

/-- `idat_data = b'\x00\x00\x7F\xFF\x00'`: the fixed 5-byte IDAT payload. -/
def idat_data : List Nat := [0x00, 0x00, 0x7F, 0xFF, 0x00]

/-- `create_simple_png(width, height)`: signature, then IHDR, IDAT and IEND
chunks, each as length field, 4-byte tag, payload, and a trailing field
`0xFFFFFFFF & ~sum(payload)`. -/
def create_simple_png (width height : Int) : Option (List Nat) := do
  let png := pngSignature
  let ihdr_data ← ihdrPack width height
  let lenIhdr ← packBE32 (ihdr_data.length : Int)
  let crcIhdr ← packBE32 ((compl32 ihdr_data.sum : Nat) : Int)
  let ihdr := lenIhdr ++ tagIHDR ++ ihdr_data ++ crcIhdr
  let lenIdat ← packBE32 (idat_data.length : Int)
  let crcIdat ← packBE32 ((compl32 idat_data.sum : Nat) : Int)
  let idat := lenIdat ++ tagIDAT ++ idat_data ++ crcIdat
  let lenIend ← packBE32 0
  let crcIend ← packBE32 ((compl32 0 : Nat) : Int)
  let iend := lenIend ++ tagIEND ++ crcIend
  pure (png ++ ihdr ++ idat ++ iend)

/-- The hardcoded descriptor table `assets` of the script. -/
def assets : List (String × Int × Int) :=
  [("icon.png", 1024, 1024),
   ("splash.png", 2048, 2048),
   ("adaptive-icon.png", 1024, 1024),
   ("notification-icon.png", 96, 96),
   ("favicon.png", 32, 32)]

/-- The `for filename, width, height in assets:` loop followed by the final
`print`. Returns the written files (name, bytes) in order and the stdout
lines in order; `none` models an uncaught exception from `create_simple_png`. -/
def runLoop : List (String × Int × Int) → Option (List (String × List Nat) × List String)
  | [] => some ([], ["All assets created successfully!"])
  | (filename, width, height) :: rest => do
    let png ← create_simple_png width height
    let (files, out) ← runLoop rest
    pure ((filename, png) :: files, ("Created " ++ filename) :: out)

/-- The 13-byte IHDR payload at the `Nat` level, for in-range dimensions. -/
def ihdr_payload (w h : Nat) : List Nat := be32 w ++ be32 h ++ [8, 2, 0, 0, 0]

/-- The full byte stream `create_simple_png` produces for in-range dimensions. -/
def pngBytes (w h : Nat) : List Nat :=
  pngSignature ++
    (be32 13 ++ tagIHDR ++ ihdr_payload w h ++ be32 (compl32 (ihdr_payload w h).sum)) ++
    (be32 5 ++ tagIDAT ++ idat_data ++ be32 (compl32 idat_data.sum)) ++
    (be32 0 ++ tagIEND ++ be32 (compl32 0))

/-- Read a list of bytes as a big-endian integer. -/
def readBE32 (bs : List Nat) : Nat := bs.foldl (fun a b => a * 256 + b) 0

/-- A parsed PNG chunk: 4-byte tag, payload, 4-byte trailing field. -/
structure Chunk where
  tag : List Nat
  payload : List Nat
  crc : List Nat

/-- Fuel-indexed chunk-sequence parser: reads a 4-byte big-endian length, a
4-byte tag, that many payload bytes and a 4-byte trailer, until the input is
exhausted; `none` on any truncated input. -/
def parseChunksF : Nat → List Nat → Option (List Chunk)
  | _, [] => some []
  | 0, _ :: _ => none
  | fuel + 1, b :: bs =>
    let s := b :: bs
    if 8 ≤ s.length then
      let len := readBE32 (s.take 4)
      let body := (s.drop 4).drop 4
      if len + 4 ≤ body.length then
        (parseChunksF fuel (body.drop (len + 4))).map
          (fun cs => ⟨(s.drop 4).take 4, body.take len, (body.drop len).take 4⟩ :: cs)
      else none
    else none

/-- Parse a byte stream into its complete list of chunks. -/
def parseChunks (bs : List Nat) : Option (List Chunk) := parseChunksF bs.length bs

/-- One shift-and-conditionally-xor round of the reflected CRC-32 polynomial
`0xEDB88320` used by PNG. -/
def crcRound (r : Nat) : Nat := if r % 2 = 1 then (r / 2) ^^^ 0xEDB88320 else r / 2

/-- Fold one byte into a CRC-32 accumulator. -/
def crcByteStep (crc b : Nat) : Nat := crcRound^[8] (crc ^^^ b)

/-- The PNG CRC-32 of a byte string (init `0xFFFFFFFF`, reflected polynomial
`0xEDB88320`, final xor `0xFFFFFFFF`); over a chunk it is computed on the tag
followed by the payload. -/
def crc32 (bs : List Nat) : Nat := (bs.foldl crcByteStep 0xFFFFFFFF) ^^^ 0xFFFFFFFF

/-! ### Helper lemmas -/

theorem compl32_lt (s : Nat) : compl32 s < 4294967296 := by
  unfold compl32
  omega

theorem packBE32_of_bounds (x : Int) (h0 : 0 ≤ x) (h1 : x < 4294967296) :
    packBE32 x = some (be32 x.toNat) := by
  unfold packBE32
  rw [if_pos ⟨h0, h1⟩]

theorem packBE32_nat (n : Nat) (h : n < 4294967296) : packBE32 (n : Int) = some (be32 n) := by
  rw [packBE32_of_bounds _ (Int.natCast_nonneg n) (by exact_mod_cast h)]
  simp

theorem packBE32_compl32 (s : Nat) :
    packBE32 ((compl32 s : Nat) : Int) = some (be32 (compl32 s)) :=
  packBE32_nat _ (compl32_lt s)

theorem create_simple_png_eq (w h : Int) (hw0 : 0 ≤ w) (hw1 : w < 4294967296)
    (hh0 : 0 ≤ h) (hh1 : h < 4294967296) :
    create_simple_png w h = some (pngBytes w.toNat h.toNat) := by
  unfold create_simple_png ihdrPack
  rw [packBE32_of_bounds w hw0 hw1, packBE32_of_bounds h hh0 hh1]
  simp only [packBE32_compl32, show packU8 8 = some [8] from rfl,
    show packU8 2 = some [2] from rfl, show packU8 0 = some [0] from rfl,
    show packBE32 0 = some (be32 0) from rfl,
    show packBE32 13 = some (be32 13) from rfl,
    show packBE32 5 = some (be32 5) from rfl,
    Option.bind_eq_bind, Option.some_bind]
  rw [show (pure : List Nat → Option (List Nat)) = some from rfl]
  rw [Option.some_bind]
  simp only [List.length_append, List.length_cons, List.length_nil, Nat.reduceAdd,
    Nat.cast_ofNat, show ∀ n, (be32 n).length = 4 from fun _ => rfl,
    show idat_data.length = 5 from rfl,
    show packBE32 13 = some (be32 13) from rfl,
    show packBE32 5 = some (be32 5) from rfl,
    Option.some_bind]
  refine congrArg some ?_
  simp only [pngBytes, ihdr_payload, List.append_assoc, List.singleton_append,
    List.cons_append, List.nil_append]

theorem readBE32_be32 (n : Nat) (h : n < 4294967296) : readBE32 (be32 n) = n := by
  show (((0 * 256 + n / 16777216 % 256) * 256 + n / 65536 % 256) * 256 + n / 256 % 256) * 256 +
      n % 256 = n
  omega

theorem packBE32_none (x : Int) (h : ¬(0 ≤ x ∧ x < 4294967296)) : packBE32 x = none := by
  unfold packBE32
  rw [if_neg h]

theorem ihdrPack_none (w h : Int)
    (hcon : ¬((0 ≤ w ∧ w < 4294967296) ∧ (0 ≤ h ∧ h < 4294967296))) :
    ihdrPack w h = none := by
  unfold ihdrPack
  rcases not_and_or.mp hcon with hw | hh
  · rw [packBE32_none w hw]
    rfl
  · cases hx : packBE32 w with
    | none => rfl
    | some wb =>
      simp only [Option.bind_eq_bind, Option.some_bind, packBE32_none h hh]
      rfl

theorem create_simple_png_none (w h : Int)
    (hcon : ¬((0 ≤ w ∧ w < 4294967296) ∧ (0 ≤ h ∧ h < 4294967296))) :
    create_simple_png w h = none := by
  unfold create_simple_png
  rw [ihdrPack_none w h hcon]
  rfl

/-! ### Claims -/

/-- C1 (counterexample): with descriptor `("favicon.png", 32, 32)` the emitted
byte sequence does NOT have total length 58: the claim's total omits the
IEND chunk's 4-byte trailing field. -/
theorem favicon_length_ne_58 : (create_simple_png 32 32).map List.length ≠ some 58 := by
  decide

/-- C1 (amended): invoking the emitter with descriptor `("favicon.png", 32, 32)`
yields a byte sequence whose bytes, read as 4-byte big-endian integers at
offsets 16 and 20, equal 32 and 32 respectively, and whose total length
equals 62 bytes (8-byte signature, 25-byte IHDR chunk, 17-byte IDAT chunk,
12-byte IEND chunk). -/
theorem favicon_dims_and_length :
    (create_simple_png 32 32).map
      (fun png =>
        (readBE32 ((png.drop 16).take 4), readBE32 ((png.drop 20).take 4), png.length)) =
      some (32, 32, 62) := by
  decide

/-- C2: for every width and height accepted by the emitter, the produced byte
sequence begins with the exact 8-byte PNG signature and parses, after the
signature, into exactly three chunks whose tags are IHDR, IDAT, IEND in that
order. -/
theorem png_signature_and_three_chunks (w h : Int) (hw0 : 0 ≤ w) (hw1 : w < 4294967296)
    (hh0 : 0 ≤ h) (hh1 : h < 4294967296) :
    ∃ png, create_simple_png w h = some png ∧ png.take 8 = pngSignature ∧
      ∃ cs, parseChunks (png.drop 8) = some cs ∧
        cs.map Chunk.tag = [tagIHDR, tagIDAT, tagIEND] :=
  ⟨pngBytes w.toNat h.toNat, create_simple_png_eq w h hw0 hw1 hh0 hh1, rfl,
    [⟨tagIHDR, ihdr_payload w.toNat h.toNat, be32 (compl32 (ihdr_payload w.toNat h.toNat).sum)⟩,
     ⟨tagIDAT, idat_data, be32 (compl32 idat_data.sum)⟩,
     ⟨tagIEND, [], be32 (compl32 0)⟩], rfl, rfl⟩

/-- C2 witness at `(32, 32)`. -/
theorem png_signature_and_three_chunks_witness :
    ∃ png, create_simple_png 32 32 = some png ∧ png.take 8 = pngSignature ∧
      ∃ cs, parseChunks (png.drop 8) = some cs ∧
        cs.map Chunk.tag = [tagIHDR, tagIDAT, tagIEND] :=
  png_signature_and_three_chunks 32 32 (by decide) (by decide) (by decide) (by decide)

/-- C3: for every accepted descriptor, the IHDR length field equals 13 and the
13-byte IHDR payload is the width as 4 big-endian bytes, the height as 4
big-endian bytes, then the five bytes 8 (bit depth), 2 (color type),
0 (compression), 0 (filter), 0 (interlace). -/
theorem ihdr_fields_correct (w h : Int) (hw0 : 0 ≤ w) (hw1 : w < 4294967296)
    (hh0 : 0 ≤ h) (hh1 : h < 4294967296) :
    ∃ png, create_simple_png w h = some png ∧
      readBE32 ((png.drop 8).take 4) = 13 ∧
      (png.drop 16).take 4 = be32 w.toNat ∧
      (png.drop 20).take 4 = be32 h.toNat ∧
      (png.drop 24).take 5 = [8, 2, 0, 0, 0] :=
  ⟨pngBytes w.toNat h.toNat, create_simple_png_eq w h hw0 hw1 hh0 hh1, rfl, rfl, rfl, rfl⟩

/-- C3 witness at `(1024, 1024)` (the `icon.png` descriptor). -/
theorem ihdr_fields_correct_witness :
    ∃ png, create_simple_png 1024 1024 = some png ∧
      readBE32 ((png.drop 8).take 4) = 13 ∧
      (png.drop 16).take 4 = be32 (1024 : Int).toNat ∧
      (png.drop 20).take 4 = be32 (1024 : Int).toNat ∧
      (png.drop 24).take 5 = [8, 2, 0, 0, 0] :=
  ihdr_fields_correct 1024 1024 (by decide) (by decide) (by decide) (by decide)

set_option maxRecDepth 100000 in
/-- C4: in every produced byte stream the 4-byte trailing fields of the IHDR
chunk (offset 29) and the IDAT chunk (offset 46), read big-endian, equal the
bitwise complement of the arithmetic sum of the chunk's payload bytes reduced
to 32 bits (`compl32`), and for the five descriptors of the script this value
differs from the PNG CRC-32 of the chunk (computed over tag and payload). -/
theorem trailing_checksum_not_crc32 (w h : Int) (hw0 : 0 ≤ w) (hw1 : w < 4294967296)
    (hh0 : 0 ≤ h) (hh1 : h < 4294967296) :
    (∃ png, create_simple_png w h = some png ∧
      readBE32 ((png.drop 29).take 4) = compl32 (ihdr_payload w.toNat h.toNat).sum ∧
      readBE32 ((png.drop 46).take 4) = compl32 idat_data.sum) ∧
    (∀ d ∈ assets,
      compl32 (ihdr_payload d.2.1.toNat d.2.2.toNat).sum ≠
        crc32 (tagIHDR ++ ihdr_payload d.2.1.toNat d.2.2.toNat)) ∧
    compl32 idat_data.sum ≠ crc32 (tagIDAT ++ idat_data) := by
  refine ⟨⟨pngBytes w.toNat h.toNat, create_simple_png_eq w h hw0 hw1 hh0 hh1, ?_, rfl⟩,
    by decide, by decide⟩
  rw [show ((pngBytes w.toNat h.toNat).drop 29).take 4 =
      be32 (compl32 (ihdr_payload w.toNat h.toNat).sum) from rfl]
  exact readBE32_be32 _ (compl32_lt _)

/-- C4 witness at `(96, 96)` (the `notification-icon.png` descriptor). -/
theorem trailing_checksum_not_crc32_witness :
    (∃ png, create_simple_png 96 96 = some png ∧
      readBE32 ((png.drop 29).take 4) = compl32 (ihdr_payload (96 : Int).toNat (96 : Int).toNat).sum ∧
      readBE32 ((png.drop 46).take 4) = compl32 idat_data.sum) ∧
    (∀ d ∈ assets,
      compl32 (ihdr_payload d.2.1.toNat d.2.2.toNat).sum ≠
        crc32 (tagIHDR ++ ihdr_payload d.2.1.toNat d.2.2.toNat)) ∧
    compl32 idat_data.sum ≠ crc32 (tagIDAT ++ idat_data) :=
  trailing_checksum_not_crc32 96 96 (by decide) (by decide) (by decide) (by decide)

/-- C5: for every width and height accepted by the emitter, the returned byte
sequence has the same fixed total length 62, and the 17 bytes of its IDAT
chunk (offset 33) are the identical fixed sequence: length field 5, tag
`IDAT`, payload `00 00 7F FF 00`, trailing field `FF FF FE 81`, independent
of width and height. -/
theorem fixed_length_and_fixed_idat (w h : Int) (hw0 : 0 ≤ w) (hw1 : w < 4294967296)
    (hh0 : 0 ≤ h) (hh1 : h < 4294967296) :
    ∃ png, create_simple_png w h = some png ∧ png.length = 62 ∧
      (png.drop 33).take 17 =
        [0, 0, 0, 5] ++ tagIDAT ++ [0x00, 0x00, 0x7F, 0xFF, 0x00] ++ [0xFF, 0xFF, 0xFE, 0x81] :=
  ⟨pngBytes w.toNat h.toNat, create_simple_png_eq w h hw0 hw1 hh0 hh1, rfl, rfl⟩

/-- C5 witness at `(2048, 2048)` (the `splash.png` descriptor). -/
theorem fixed_length_and_fixed_idat_witness :
    ∃ png, create_simple_png 2048 2048 = some png ∧ png.length = 62 ∧
      (png.drop 33).take 17 =
        [0, 0, 0, 5] ++ tagIDAT ++ [0x00, 0x00, 0x7F, 0xFF, 0x00] ++ [0xFF, 0xFF, 0xFE, 0x81] :=
  fixed_length_and_fixed_idat 2048 2048 (by decide) (by decide) (by decide) (by decide)

/-- C6: the emitter is deterministic: the byte-stream construction is a pure
function of `(width, height)` — two runs on the same pair are byte-identical —
and running the whole emitter loop twice produces identical files and output. -/
theorem emitter_deterministic :
    ∀ (w h : Int) (ds : List (String × Int × Int)),
      create_simple_png w h = create_simple_png w h ∧ runLoop ds = runLoop ds :=
  fun _ _ _ => ⟨rfl, rfl⟩

/-- C7: a full run writes exactly five files named `icon.png`, `splash.png`,
`adaptive-icon.png`, `notification-icon.png`, `favicon.png`, whose IHDR
width/height fields are (1024,1024), (2048,2048), (1024,1024), (96,96),
(32,32) respectively, and prints one `Created {filename}` line per asset in
that order followed by `All assets created successfully!`. -/
theorem full_run_files_and_stdout :
    (runLoop assets).map (fun r => r.1.map Prod.fst) =
      some ["icon.png", "splash.png", "adaptive-icon.png", "notification-icon.png",
        "favicon.png"] ∧
    (runLoop assets).map
        (fun r => r.1.map
          (fun f => (readBE32 ((f.2.drop 16).take 4), readBE32 ((f.2.drop 20).take 4)))) =
      some [(1024, 1024), (2048, 2048), (1024, 1024), (96, 96), (32, 32)] ∧
    (runLoop assets).map Prod.snd =
      some ["Created icon.png", "Created splash.png", "Created adaptive-icon.png",
        "Created notification-icon.png", "Created favicon.png",
        "All assets created successfully!"] :=
  ⟨by decide, by decide, by decide⟩

/-- C8: in every produced byte stream the IEND chunk has a zero-length payload
(its 4-byte length field at offset 50 reads 0) and its 4-byte trailing field
at offset 58 reads `compl32 0`, the 32-bit bitwise complement of zero. -/
theorem iend_zero_length_payload (w h : Int) (hw0 : 0 ≤ w) (hw1 : w < 4294967296)
    (hh0 : 0 ≤ h) (hh1 : h < 4294967296) :
    ∃ png, create_simple_png w h = some png ∧
      readBE32 ((png.drop 50).take 4) = 0 ∧
      readBE32 ((png.drop 58).take 4) = compl32 0 :=
  ⟨pngBytes w.toNat h.toNat, create_simple_png_eq w h hw0 hw1 hh0 hh1, rfl, rfl⟩

/-- C8 witness at `(32, 32)`. -/
theorem iend_zero_length_payload_witness :
    ∃ png, create_simple_png 32 32 = some png ∧
      readBE32 ((png.drop 50).take 4) = 0 ∧
      readBE32 ((png.drop 58).take 4) = compl32 0 :=
  iend_zero_length_payload 32 32 (by decide) (by decide) (by decide) (by decide)

/-- C9: `create_simple_png` succeeds exactly on 32-bit unsigned dimensions:
it returns a byte sequence iff `0 ≤ width < 2^32` and `0 ≤ height < 2^32`
(including 0); outside that range the IHDR `struct.pack` fails. The masked
trailing fields are always in `[0, 2^32)`, so their packs never fail. -/
theorem create_total_iff_u32 (w h : Int) :
    (create_simple_png w h).isSome ↔
      (0 ≤ w ∧ w < 4294967296) ∧ (0 ≤ h ∧ h < 4294967296) := by
  constructor
  · intro hs
    by_contra hcon
    rw [create_simple_png_none w h hcon] at hs
    simp at hs
  · rintro ⟨⟨hw0, hw1⟩, hh0, hh1⟩
    rw [create_simple_png_eq w h hw0 hw1 hh0 hh1]
    rfl

/-- C10: the produced stream depends only on `(width, height)`, so after a full
run the files written for `icon.png` and `adaptive-icon.png` (both 1024×1024)
have byte-identical contents. -/
theorem icon_eq_adaptive_icon :
    ∃ fs out, runLoop assets = some (fs, out) ∧
      fs.lookup "icon.png" = fs.lookup "adaptive-icon.png" ∧
      (fs.lookup "icon.png").isSome :=
  ⟨_, _, rfl, rfl, rfl⟩
